import Mathlib

/-!
Shallow embedding of the libbeaglebone peripheral library (src/gpio.rs,
src/pwm.rs, src/adc.rs, src/i2c.rs, src/spi.rs, src/pins.rs, src/util.rs).

Modelling conventions:
* Sysfs file writes performed by an operation are returned explicitly as
  `FileWrite` values (path and written string), translated from the Rust
  code's format strings.
* The filesystem probe `path.exists()` used by the export logic is passed
  in as a boolean, and the environment's willingness to let a control-file
  write succeed is passed in as a function from paths to Bool; a failed
  control-file write is an `Except.error` carrying the chain_err message,
  exactly as in the source.
* Machine integers are `Nat` with explicit wrap-around (`% 65536` for u16)
  where the source can overflow; u32 casts from f32 saturate, as in Rust.
* The f32 arithmetic of PWM::write is idealized over `ℚ`: the operations
  `percentage / 100.0 * (period as f32)` are taken exact, and the final
  Rust `as u32` cast (truncate toward zero, saturate to [0, u32::MAX],
  NaN to 0) is `ratAsU32`.  Every concrete input appearing in a theorem
  below is one on which the real f32 computation is exact, so the model
  and the source agree at those points.
* A Rust panic (a failed `assert_eq!` or `.unwrap()`) is a failure
  outcome distinct from a returned `Err`.
-/

/-- The device export state, from src/enums.rs: Exported or Unexported. -/
inductive DeviceState
  | Exported
  | Unexported
deriving DecidableEq

/-- One write of a string to a sysfs device file, as performed by
util.rs write_file / File::write_all. -/
structure FileWrite where
  path : String
  data : String
deriving DecidableEq

/-- Classified I/O failures of the device-file primitive (spec section 7). -/
inductive IoFailure
  | OpenFailed
  | TransferFailed
deriving DecidableEq

/-- Outcome of a Rust call: value returned, error returned, or panic. -/
inductive Outcome (α : Type)
  | ok (v : α)
  | err (msg : String)
  | panicked
deriving DecidableEq

/-- The logic level of a GPIO pin, from src/gpio.rs. -/
inductive PinState
  | High
  | Low
deriving DecidableEq

/-- Rust's str::trim: strip leading and trailing whitespace.  Written
structurally over the character list so that it evaluates. -/
def rustTrim (s : String) : String :=
  ⟨((s.data.dropWhile Char.isWhitespace).reverse.dropWhile Char.isWhitespace).reverse⟩

/-- GPIO::read (src/gpio.rs lines 232-240), as a function of the result of
`path.read_file()` for the pin's value file.  The source computes
`path.read_file().unwrap()`, so an Err from the file primitive is a Rust
panic, modelled as `Outcome.panicked`; on Ok content it trims and maps
"1" to High, "0" to Low, anything else to the bail! error message. -/
def GPIO.read (pin_num : Nat) (file_result : Except IoFailure String) : Outcome PinState :=
  match file_result with
  | Except.error _ => Outcome.panicked
  | Except.ok s =>
      if rustTrim s = "1" then Outcome.ok PinState.High
      else if rustTrim s = "0" then Outcome.ok PinState.Low
      else Outcome.err ("Invalid value read from file /sys/class/gpio/gpio"
        ++ toString pin_num ++ "/value")

/-- GPIO::set_export (src/gpio.rs lines 144-166).  `exported` is the probe
`self.pin_path.exists()`; `env p` says whether opening and writing the
control file `p` succeeds.  On success the pair returned is the new
directory-existence state and the list of control-file writes performed.
Modelled kernel effect (spec section 4.2): a successful write to the
export (resp. unexport) file makes the pin directory appear (disappear). -/
def GPIO.set_export (env : String → Bool) (pin_num : Nat) (exported : Bool)
    (state : DeviceState) : Except String (Bool × List FileWrite) :=
  if state = DeviceState.Exported ∧ exported = false then
    if env "/sys/class/gpio/export" then
      Except.ok (true, [⟨"/sys/class/gpio/export", toString pin_num⟩])
    else Except.error ("Failed to export GPIO pin #" ++ toString pin_num)
  else if state = DeviceState.Unexported ∧ exported = true then
    if env "/sys/class/gpio/unexport" then
      Except.ok (false, [⟨"/sys/class/gpio/unexport", toString pin_num⟩])
    else Except.error ("Failed to unexport GPIO pin #" ++ toString pin_num)
  else
    Except.ok (exported, [])

/-- The state of a PWM, from src/pwm.rs: Enabled or Disabled. -/
inductive PWMState
  | Enabled
  | Disabled
deriving DecidableEq

/-- The PWM handle, from src/pwm.rs: chip and pwm numbers plus the cached
period, duty cycle (both u32, in nanoseconds) and state. -/
structure PWM where
  pwm_chip_num : Nat
  pwm_num : Nat
  period : Nat
  duty_cycle : Nat
  state : PWMState
deriving DecidableEq

/-- PWM::new (src/pwm.rs lines 65-73): caches start at period 0,
duty_cycle 0, state Disabled. -/
def PWM.new (pwm_chip_num pwm_num : Nat) : PWM :=
  ⟨pwm_chip_num, pwm_num, 0, 0, PWMState.Disabled⟩

/-- Largest u32 value, 2^32 - 1. -/
def U32_MAX : Nat := 4294967295

/-- Rust's saturating f32-to-u32 cast `as u32`, on the exact-rational
idealization of the float value: truncate toward zero and clamp to
[0, U32_MAX] (a negative or NaN float casts to 0).  On the nonnegative
branch truncation toward zero coincides with the floor. -/
def ratAsU32 (q : ℚ) : Nat :=
  if q < 0 then 0 else min (Int.toNat ⌊q⌋) U32_MAX

/-- The sysfs period path of a PWM handle (src/pwm.rs lines 157-161). -/
def PWM.period_path (p : PWM) : String :=
  "/sys/class/pwm/pwmchip" ++ toString p.pwm_chip_num ++ "/pwm"
    ++ toString p.pwm_num ++ "/period"

/-- The sysfs enable path of a PWM handle (src/pwm.rs lines 198-202). -/
def PWM.enable_path (p : PWM) : String :=
  "/sys/class/pwm/pwmchip" ++ toString p.pwm_chip_num ++ "/pwm"
    ++ toString p.pwm_num ++ "/enable"

/-- The sysfs duty_cycle path of a PWM handle (src/pwm.rs lines 248-252). -/
def PWM.duty_cycle_path (p : PWM) : String :=
  "/sys/class/pwm/pwmchip" ++ toString p.pwm_chip_num ++ "/pwm"
    ++ toString p.pwm_num ++ "/duty_cycle"

/-- PWM::set_period (src/pwm.rs lines 156-172), successful execution:
writes the decimal period to the period file, then caches it. -/
def PWM.set_period (p : PWM) (period_ns : Nat) : PWM × FileWrite :=
  ({ p with period := period_ns }, ⟨p.period_path, toString period_ns⟩)

/-- PWM::set_state (src/pwm.rs lines 197-217), successful execution:
writes "1"/"0" to the enable file, then caches the state. -/
def PWM.set_state (p : PWM) (s : PWMState) : PWM × FileWrite :=
  ({ p with state := s },
   ⟨p.enable_path, match s with | PWMState.Enabled => "1" | PWMState.Disabled => "0"⟩)

/-- PWM::write (src/pwm.rs lines 247-267), successful execution: computes
`((percentage / 100.0) * (self.period as f32)) as u32` from the handle's
cached period, writes its decimal string to the duty_cycle file, then
caches it.  No validation of the percentage is performed. -/
def PWM.write (p : PWM) (percentage : ℚ) : PWM × FileWrite :=
  let new_duty_cycle := ratAsU32 (percentage / 100 * (p.period : ℚ))
  ({ p with duty_cycle := new_duty_cycle },
   ⟨p.duty_cycle_path, toString new_duty_cycle⟩)

/-- PWM::set_duty_cycle (src/pwm.rs lines 296-314), successful execution:
writes the literal nanosecond value to the duty_cycle file and caches it.
No check against the cached period is performed. -/
def PWM.set_duty_cycle (p : PWM) (duty_cycle_ns : Nat) : PWM × FileWrite :=
  ({ p with duty_cycle := duty_cycle_ns }, ⟨p.duty_cycle_path, toString duty_cycle_ns⟩)

/-- PWM::set_export (src/pwm.rs lines 93-134), same shape as the GPIO
version: `exported` is the probe of /sys/class/pwm/pwmchipC/pwmN, and a
successful export (unexport) write of the pwm number to the chip's
export (unexport) file makes the directory appear (disappear). -/
def PWM.set_export (env : String → Bool) (pwm_chip_num pwm_num : Nat) (exported : Bool)
    (state : DeviceState) : Except String (Bool × List FileWrite) :=
  if state = DeviceState.Exported ∧ exported = false then
    if env ("/sys/class/pwm/pwmchip" ++ toString pwm_chip_num ++ "/export") then
      Except.ok (true,
        [⟨"/sys/class/pwm/pwmchip" ++ toString pwm_chip_num ++ "/export", toString pwm_num⟩])
    else Except.error ("Failed to open PWM export file")
  else if state = DeviceState.Unexported ∧ exported = true then
    if env ("/sys/class/pwm/pwmchip" ++ toString pwm_chip_num ++ "/unexport") then
      Except.ok (false,
        [⟨"/sys/class/pwm/pwmchip" ++ toString pwm_chip_num ++ "/unexport", toString pwm_num⟩])
    else Except.error ("Failed to open PWM unexport file")
  else
    Except.ok (exported, [])

/-- Failure taxonomy entries used by the SPI transfer layer (spec section 7).
PreconditionViolated is a caller-supplied invariant broken before any I/O;
in the source it is enforced by assert_eq!, a construction-time panic. -/
inductive Failure
  | PreconditionViolated
  | TransferFailed
deriving DecidableEq

/-- The spidev transfer control block, from src/spi.rs lines 43-52.  The
source stores the two buffer addresses (u64) and the common length; the
model carries the buffer contents themselves. -/
structure spi_ioc_transfer where
  tx_buf : List Nat
  rx_buf : List Nat
  len : Nat
deriving DecidableEq

/-- spi_ioc_transfer::read_write (src/spi.rs lines 72-80): asserts
tx_buf.len() == rx_buf.len() before building the block; the failed
assertion is a construction-time panic, modelled as
Except.error Failure.PreconditionViolated.  No ioctl occurs here. -/
def spi_ioc_transfer.read_write (tx_buf rx_buf : List Nat) : Except Failure spi_ioc_transfer :=
  if tx_buf.length = rx_buf.length then
    Except.ok ⟨tx_buf, rx_buf, tx_buf.length⟩
  else Except.error Failure.PreconditionViolated

/-- One ioctl dispatch: the request number and the payload length moved. -/
structure IoctlEvent where
  request : Nat
  payloadLen : Nat
deriving DecidableEq

/-- The spidev transfer ioctl op-number, from src/spi.rs line 87. -/
def SPI_IOC_NR_TRANSFER : Nat := 0

/-- SPI::transfer (src/spi.rs lines 210-218) dispatches exactly one
spidev_transfer ioctl for the given control block. -/
def SPI.transfer (t : spi_ioc_transfer) : List IoctlEvent :=
  [⟨SPI_IOC_NR_TRANSFER, t.len⟩]

/-- The combined read-write operation: construct the transfer block, then
dispatch it through SPI::transfer; the list of ioctl events issued.  When
construction fails no transfer block exists, so no ioctl is dispatched. -/
def SPI.read_write_events (tx_buf rx_buf : List Nat) : List IoctlEvent :=
  match spi_ioc_transfer.read_write tx_buf rx_buf with
  | Except.error _ => []
  | Except.ok t => SPI.transfer t

/-- SMBus block size bound, from src/i2c.rs line 18. -/
def I2C_SMBUS_BLOCK_MAX : Nat := 32

/-- The SMBus ioctl request number 0x0720, from src/i2c.rs line 20. -/
def I2C_SMBUS : Nat := 1824

/-- The fixed-size I2C data buffer, from src/i2c.rs lines 25-28:
block is 32 + 2 bytes. -/
structure i2c_data where
  block : List Nat
deriving DecidableEq

/-- A zero-initialized i2c_data, as produced by mem::zeroed() in
I2C::read (src/i2c.rs line 157). -/
def i2c_data.zeroed : i2c_data :=
  ⟨List.replicate (I2C_SMBUS_BLOCK_MAX + 2) 0⟩

/-- The i2cdev ioctl argument block, from src/i2c.rs lines 31-37.  The
data field is a raw pointer in the source; Option.none models the null
pointer, Option.some the address of a live buffer with those contents. -/
structure i2c_ioctl_data where
  read_write : Nat
  command : Nat
  size : Nat
  data : Option i2c_data
deriving DecidableEq

/-- I2C::i2c_call (src/i2c.rs lines 168-188): marshals the argument block
and dispatches it through the I2C_SMBUS ioctl; the model returns the
request number used and the marshalled block. -/
def I2C.i2c_call (read_write command size : Nat) (data : Option i2c_data) :
    Nat × i2c_ioctl_data :=
  (I2C_SMBUS, ⟨read_write, command, size, data⟩)

/-- I2C::write (src/i2c.rs lines 128-134): calls
i2c_call(0, data, 1, std::ptr::null_mut()) — direction write, the data
byte carried in the command field, size 1, and a null data pointer. -/
def I2C.write (data : Nat) : Nat × i2c_ioctl_data :=
  I2C.i2c_call 0 data 1 Option.none

/-- and passes the address of a zero-initialized i2c_data buffer. -/
def I2C.read_marshalled : Nat × i2c_ioctl_data :=
  I2C.i2c_call 1 0 1 (Option.some i2c_data.zeroed)

/-- I2C::read result (src/i2c.rs line 163): byte 0 of the buffer as filled
by the kernel during the ioctl. -/
def I2C.read_result (kernel_filled : i2c_data) : Nat :=
  kernel_filled.block.headD 0

/-- The pin identity table, from src/pins.rs. -/
inductive Pin
  | GPIO_P8_3
  | GPIO_P8_4
  | GPIO_P8_5
  | GPIO_P8_6
  | GPIO_P8_7
  | GPIO_P8_8
  | GPIO_P8_9
  | GPIO_P8_10
  | GPIO_P8_11
  | GPIO_P8_12
  | GPIO_P8_13
  | GPIO_P8_14
  | GPIO_P8_15
  | GPIO_P8_16
  | GPIO_P8_17
  | GPIO_P8_18
  | GPIO_P8_19
  | GPIO_P8_20
  | GPIO_P8_21
  | GPIO_P8_22
  | GPIO_P8_23
  | GPIO_P8_24
  | GPIO_P8_25
  | GPIO_P8_26
  | GPIO_P8_27
  | GPIO_P8_28
  | GPIO_P8_29
  | GPIO_P8_30
  | GPIO_P8_31
  | GPIO_P8_32
  | GPIO_P8_33
  | GPIO_P8_34
  | GPIO_P8_35
  | GPIO_P8_36
  | GPIO_P8_37
  | GPIO_P8_38
  | GPIO_P8_39
  | GPIO_P8_40
  | GPIO_P8_41
  | GPIO_P8_42
  | GPIO_P8_43
  | GPIO_P8_44
  | GPIO_P8_45
  | GPIO_P8_46
  | GPIO_P9_11
  | GPIO_P9_12
  | GPIO_P9_13
  | GPIO_P9_14
  | GPIO_P9_15
  | GPIO_P9_16
  | GPIO_P9_17
  | GPIO_P9_18
  | GPIO_P9_21
  | GPIO_P9_22
  | GPIO_P9_23
  | GPIO_P9_24
  | GPIO_P9_25
  | GPIO_P9_26
  | GPIO_P9_27
  | GPIO_P9_28
  | GPIO_P9_29
  | GPIO_P9_30
  | GPIO_P9_31
  | GPIO_P9_41
  | GPIO_P9_42
  | AIN_0
  | AIN_1
  | AIN_2
  | AIN_3
  | AIN_4
  | AIN_5
  | AIN_6
  | AIN_7
deriving DecidableEq

/-- The numeric discriminant of each pin, from src/pins.rs (the value of
`pin as u16`; every discriminant is below 2^16). -/
def Pin.toNum : Pin → Nat
  | Pin.GPIO_P8_3 => 38
  | Pin.GPIO_P8_4 => 39
  | Pin.GPIO_P8_5 => 34
  | Pin.GPIO_P8_6 => 35
  | Pin.GPIO_P8_7 => 66
  | Pin.GPIO_P8_8 => 67
  | Pin.GPIO_P8_9 => 69
  | Pin.GPIO_P8_10 => 68
  | Pin.GPIO_P8_11 => 45
  | Pin.GPIO_P8_12 => 44
  | Pin.GPIO_P8_13 => 23
  | Pin.GPIO_P8_14 => 26
  | Pin.GPIO_P8_15 => 47
  | Pin.GPIO_P8_16 => 46
  | Pin.GPIO_P8_17 => 27
  | Pin.GPIO_P8_18 => 65
  | Pin.GPIO_P8_19 => 22
  | Pin.GPIO_P8_20 => 63
  | Pin.GPIO_P8_21 => 62
  | Pin.GPIO_P8_22 => 37
  | Pin.GPIO_P8_23 => 36
  | Pin.GPIO_P8_24 => 33
  | Pin.GPIO_P8_25 => 32
  | Pin.GPIO_P8_26 => 61
  | Pin.GPIO_P8_27 => 86
  | Pin.GPIO_P8_28 => 88
  | Pin.GPIO_P8_29 => 87
  | Pin.GPIO_P8_30 => 89
  | Pin.GPIO_P8_31 => 10
  | Pin.GPIO_P8_32 => 11
  | Pin.GPIO_P8_33 => 9
  | Pin.GPIO_P8_34 => 81
  | Pin.GPIO_P8_35 => 8
  | Pin.GPIO_P8_36 => 80
  | Pin.GPIO_P8_37 => 78
  | Pin.GPIO_P8_38 => 79
  | Pin.GPIO_P8_39 => 76
  | Pin.GPIO_P8_40 => 77
  | Pin.GPIO_P8_41 => 74
  | Pin.GPIO_P8_42 => 75
  | Pin.GPIO_P8_43 => 72
  | Pin.GPIO_P8_44 => 73
  | Pin.GPIO_P8_45 => 70
  | Pin.GPIO_P8_46 => 71
  | Pin.GPIO_P9_11 => 30
  | Pin.GPIO_P9_12 => 60
  | Pin.GPIO_P9_13 => 31
  | Pin.GPIO_P9_14 => 40
  | Pin.GPIO_P9_15 => 48
  | Pin.GPIO_P9_16 => 51
  | Pin.GPIO_P9_17 => 4
  | Pin.GPIO_P9_18 => 5
  | Pin.GPIO_P9_21 => 3
  | Pin.GPIO_P9_22 => 2
  | Pin.GPIO_P9_23 => 49
  | Pin.GPIO_P9_24 => 15
  | Pin.GPIO_P9_25 => 117
  | Pin.GPIO_P9_26 => 14
  | Pin.GPIO_P9_27 => 125
  | Pin.GPIO_P9_28 => 123
  | Pin.GPIO_P9_29 => 121
  | Pin.GPIO_P9_30 => 122
  | Pin.GPIO_P9_31 => 120
  | Pin.GPIO_P9_41 => 20
  | Pin.GPIO_P9_42 => 7
  | Pin.AIN_0 => 1000
  | Pin.AIN_1 => 1001
  | Pin.AIN_2 => 1002
  | Pin.AIN_3 => 1003
  | Pin.AIN_4 => 1004
  | Pin.AIN_5 => 1005
  | Pin.AIN_6 => 1006
  | Pin.AIN_7 => 1007

/-- Wrapping u16 subtraction: the release-build semantics of `a - b` on
u16 values. -/
def u16_sub_wrap (a b : Nat) : Nat :=
  (a % 65536 + 65536 - b % 65536) % 65536

/-- Checked u16 subtraction: Option.none models the debug-build overflow
panic of `a - b` on u16 values. -/
def u16_sub_checked (a b : Nat) : Option Nat :=
  if b % 65536 ≤ a % 65536 then Option.some (a % 65536 - b % 65536) else Option.none

/-- The ADC handle, from src/adc.rs lines 20-25: the de-offset channel
number (u16) and the scaling factor (f32, idealized as ℚ). -/
structure ADC where
  adc_num : Nat
  scaling_factor : ℚ
deriving DecidableEq

/-- ADC::new (src/adc.rs lines 29-34): stores `(pin as u16) - 1000`.  The
subtraction is unchecked in the source; the model uses the wrapping
(release-build) semantics, with `u16_sub_checked` available to express
the debug-build panic. -/
def ADC.new (pin : Pin) (scaling_factor : ℚ) : ADC :=
  ⟨u16_sub_wrap pin.toNum 1000, scaling_factor⟩

/-- The sysfs path read by ADC::read (src/adc.rs lines 49-53), built from
the stored channel number. -/
def ADC.read_path (a : ADC) : String :=
  "/sys/bus/iio/devices/iio:device0/in_voltage" ++ toString a.adc_num ++ "_raw"

/-- Helper: the saturating cast of a rational bounded by a natural number P
is bounded by P. -/
theorem ratAsU32_le_of_le (q : ℚ) (P : Nat) (h : q ≤ (P : ℚ)) : ratAsU32 q ≤ P := by
  unfold ratAsU32
  split
  · exact Nat.zero_le _
  · have hfl : ⌊q⌋ ≤ (P : ℤ) := by
      have := Int.floor_le_floor h
      rwa [Int.floor_natCast] at this
    calc min (Int.toNat ⌊q⌋) U32_MAX ≤ Int.toNat ⌊q⌋ := Nat.min_le_left _ _
      _ ≤ P := by omega

/-- Helper: on a nonnegative rational that stays within u32 range, the
saturating cast is exactly the floor (truncation toward zero). -/
theorem ratAsU32_eq_floor (q : ℚ) (h0 : 0 ≤ q) (h1 : q ≤ (U32_MAX : ℚ)) :
    ratAsU32 q = Int.toNat ⌊q⌋ := by
  unfold ratAsU32
  rw [if_neg (not_lt.mpr h0)]
  have hfl : ⌊q⌋ ≤ (U32_MAX : ℤ) := by
    have := Int.floor_le_floor h1
    rwa [Int.floor_natCast] at this
  exact Nat.min_eq_left (by omega)

/-- C1 counterexample: with cached period 3 ns, write(50) computes
(50/100)*3 = 1.5 and the Rust cast truncates it to 1, while the claim's
round(1.5) is 2, so the written duty cycle differs from the claim. -/
theorem C1_counterexample :
    (((PWM.new 0 0).set_period 3).1.write 50).1.duty_cycle = 1
    ∧ round ((50 : ℚ) / 100 * 3) = 2
    ∧ (((PWM.new 0 0).set_period 3).1.write 50).1.duty_cycle
        ≠ Int.toNat (round ((50 : ℚ) / 100 * 3)) := by
  have h1 : (((PWM.new 0 0).set_period 3).1.write 50).1.duty_cycle = 1 := by
    simp [PWM.new, PWM.set_period, PWM.write, ratAsU32, U32_MAX]
    norm_num
  have h2 : round ((50 : ℚ) / 100 * 3) = 2 := by norm_num [round_eq]
  refine ⟨h1, h2, ?_⟩
  rw [h1, h2]
  decide

/-- C1 (amended): for 0 ≤ p ≤ 100 and a cached period within u32 range,
PWM::write(p) writes the decimal string of the TRUNCATION (not rounding)
of p/100 times the cached period and caches that value; write(100) yields
the cached period and write(0) yields 0; the computation uses only the
handle's cached period field. -/
theorem C1_amended (s : PWM) (p : ℚ) (hp0 : 0 ≤ p) (hp1 : p ≤ 100)
    (hP : s.period ≤ U32_MAX) :
    (s.write p).1.duty_cycle = Int.toNat ⌊p / 100 * (s.period : ℚ)⌋
    ∧ (s.write p).2 = ⟨s.duty_cycle_path, toString (Int.toNat ⌊p / 100 * (s.period : ℚ)⌋)⟩
    ∧ (s.write 100).1.duty_cycle = s.period
    ∧ (s.write 0).1.duty_cycle = 0 := by
  have hq0 : 0 ≤ p / 100 * (s.period : ℚ) :=
    mul_nonneg (div_nonneg hp0 (by norm_num)) (Nat.cast_nonneg _)
  have hqP : p / 100 * (s.period : ℚ) ≤ (s.period : ℚ) := by
    have hdiv : p / 100 ≤ 1 := (div_le_one (by norm_num)).mpr hp1
    calc p / 100 * (s.period : ℚ) ≤ 1 * (s.period : ℚ) :=
          mul_le_mul_of_nonneg_right hdiv (Nat.cast_nonneg _)
      _ = (s.period : ℚ) := one_mul _
  have hqU : p / 100 * (s.period : ℚ) ≤ (U32_MAX : ℚ) :=
    le_trans hqP (Nat.cast_le.mpr hP)
  have hmain : ratAsU32 (p / 100 * (s.period : ℚ)) = Int.toNat ⌊p / 100 * (s.period : ℚ)⌋ :=
    ratAsU32_eq_floor _ hq0 hqU
  refine ⟨?_, ?_, ?_, ?_⟩
  · show ratAsU32 (p / 100 * (s.period : ℚ)) = _
    exact hmain
  · show FileWrite.mk s.duty_cycle_path (toString (ratAsU32 (p / 100 * (s.period : ℚ)))) = _
    rw [hmain]
  · show ratAsU32 ((100 : ℚ) / 100 * (s.period : ℚ)) = s.period
    have : (100 : ℚ) / 100 * (s.period : ℚ) = (s.period : ℚ) := by norm_num
    rw [this, ratAsU32_eq_floor _ (Nat.cast_nonneg _) (Nat.cast_le.mpr hP),
      Int.floor_natCast, Int.toNat_natCast]
  · show ratAsU32 ((0 : ℚ) / 100 * (s.period : ℚ)) = 0
    have : (0 : ℚ) / 100 * (s.period : ℚ) = 0 := by norm_num
    rw [this]
    simp [ratAsU32]

/-- C1 witness: the spec scenario, period 500000 ns, write(50): the
amended theorem applies and gives duty cycle 250000. -/
theorem C1_amended_witness :
    (0 : ℚ) ≤ 50 ∧ (50 : ℚ) ≤ 100
    ∧ (((PWM.new 0 0).set_period 500000).1).period ≤ U32_MAX
    ∧ ((((PWM.new 0 0).set_period 500000).1.write 50).1.duty_cycle
        = Int.toNat ⌊(50 : ℚ) / 100 * (((((PWM.new 0 0).set_period 500000).1).period : Nat) : ℚ)⌋)
    ∧ Int.toNat ⌊(50 : ℚ) / 100 * ((500000 : Nat) : ℚ)⌋ = 250000 := by
  refine ⟨by norm_num, by norm_num, by decide, ?_, by norm_num; decide⟩
  exact (C1_amended (((PWM.new 0 0).set_period 500000).1) 50 (by norm_num) (by norm_num)
    (by decide)).1

/-- C2: export is idempotent for GPIO and PWM: requesting Exported while
the sysfs directory exists, or Unexported while it does not, performs no
control-file write and succeeds; from an unexported start, a successful
export performs exactly one write and makes the directory exist, so an
immediately repeated export performs zero further writes. -/
theorem C2_export_idempotent (env : String → Bool) (pin_num pwm_chip_num pwm_num : Nat) :
    GPIO.set_export env pin_num true DeviceState.Exported = Except.ok (true, [])
    ∧ GPIO.set_export env pin_num false DeviceState.Unexported = Except.ok (false, [])
    ∧ (env "/sys/class/gpio/export" = true →
        GPIO.set_export env pin_num false DeviceState.Exported
          = Except.ok (true, [⟨"/sys/class/gpio/export", toString pin_num⟩])
        ∧ GPIO.set_export env pin_num true DeviceState.Exported = Except.ok (true, []))
    ∧ PWM.set_export env pwm_chip_num pwm_num true DeviceState.Exported = Except.ok (true, [])
    ∧ PWM.set_export env pwm_chip_num pwm_num false DeviceState.Unexported
        = Except.ok (false, [])
    ∧ (env ("/sys/class/pwm/pwmchip" ++ toString pwm_chip_num ++ "/export") = true →
        PWM.set_export env pwm_chip_num pwm_num false DeviceState.Exported
          = Except.ok (true,
              [⟨"/sys/class/pwm/pwmchip" ++ toString pwm_chip_num ++ "/export",
                toString pwm_num⟩])
        ∧ PWM.set_export env pwm_chip_num pwm_num true DeviceState.Exported
            = Except.ok (true, [])) := by
  refine ⟨?_, ?_, fun h => ?_, ?_, ?_, fun h => ?_⟩
  · simp [ GPIO.set_export]
  · simp [ GPIO.set_export]
  · constructor <;> simp [ GPIO.set_export, h]
  · simp [PWM.set_export]
  · simp [PWM.set_export]
  · constructor <;> simp [PWM.set_export, h]

/-- C2 witness: pin 69 and PWM chip 0 pwm 0 on a permissive environment,
each starting unexported: the first export performs one write (of "69",
resp. "0"), the second performs none, for GPIO and for PWM alike. -/
theorem C2_witness :
    ( GPIO.set_export (fun _ => true) 69 false DeviceState.Exported
      = Except.ok (true, [⟨"/sys/class/gpio/export", toString (69 : Nat)⟩])
    ∧ GPIO.set_export (fun _ => true) 69 true DeviceState.Exported = Except.ok (true, []))
    ∧ (PWM.set_export (fun _ => true) 0 0 false DeviceState.Exported
      = Except.ok (true,
          [⟨"/sys/class/pwm/pwmchip" ++ toString (0 : Nat) ++ "/export",
            toString (0 : Nat)⟩])
    ∧ PWM.set_export (fun _ => true) 0 0 true DeviceState.Exported = Except.ok (true, [])) :=
  ⟨(C2_export_idempotent (fun _ => true) 69 0 0).2.2.1 rfl,
    (C2_export_idempotent (fun _ => true) 69 0 0).2.2.2.2.2 rfl⟩

/-- C3 counterexample: new handle, set_period(100), set_state(Enabled),
set_duty_cycle(200): every operation succeeds, the cached state is
Enabled, and the cached duty cycle 200 exceeds the cached period 100 —
set_duty_cycle performs no check against the period. -/
theorem C3_counterexample :
    ((((PWM.new 0 0).set_period 100).1.set_state PWMState.Enabled).1.set_duty_cycle 200).1.state
        = PWMState.Enabled
    ∧ ((((PWM.new 0 0).set_period 100).1.set_state PWMState.Enabled).1.set_duty_cycle 200).1.period
        = 100
    ∧ ((((PWM.new 0 0).set_period 100).1.set_state PWMState.Enabled).1.set_duty_cycle
        200).1.duty_cycle = 200
    ∧ ¬((((PWM.new 0 0).set_period 100).1.set_state PWMState.Enabled).1.set_duty_cycle
          200).1.duty_cycle
        ≤ ((((PWM.new 0 0).set_period 100).1.set_state PWMState.Enabled).1.set_duty_cycle
          200).1.period := by
  refine ⟨rfl, rfl, rfl, by decide⟩

/-- C3 (amended): PWM::write with a percentage in [0,100] always leaves
the cached duty cycle at most the cached period (and does not change the
period or the state), so the invariant holds after every such write; the
unvalidated set_duty_cycle path is what can break it. -/
theorem C3_amended (s : PWM) (p : ℚ) (hp0 : 0 ≤ p) (hp1 : p ≤ 100) :
    (s.write p).1.duty_cycle ≤ (s.write p).1.period
    ∧ (s.write p).1.period = s.period
    ∧ (s.write p).1.state = s.state := by
  have hqP : p / 100 * (s.period : ℚ) ≤ (s.period : ℚ) := by
    have hdiv : p / 100 ≤ 1 := (div_le_one (by norm_num)).mpr hp1
    calc p / 100 * (s.period : ℚ) ≤ 1 * (s.period : ℚ) :=
          mul_le_mul_of_nonneg_right hdiv (Nat.cast_nonneg _)
      _ = (s.period : ℚ) := one_mul _
  exact ⟨ratAsU32_le_of_le _ _ hqP, rfl, rfl⟩

/-- C3 witness: an enabled handle with period 100, write(75): the duty
cycle stays at most the period. -/
theorem C3_amended_witness :
    (0 : ℚ) ≤ 75 ∧ (75 : ℚ) ≤ 100
    ∧ ((((PWM.new 0 0).set_period 100).1.set_state PWMState.Enabled).1.write 75).1.duty_cycle
        ≤ ((((PWM.new 0 0).set_period 100).1.set_state PWMState.Enabled).1.write 75).1.period :=
  ⟨by norm_num, by norm_num,
    (C3_amended (((PWM.new 0 0).set_period 100).1.set_state PWMState.Enabled).1 75
      (by norm_num) (by norm_num)).1⟩

/-- C4: constructing a combined SPI read-write transfer from buffers of
unequal length fails with PreconditionViolated (the source's assert_eq!
fires before the struct exists) and the combined operation dispatches no
ioctl at all. -/
theorem C4_mismatched_lengths (tx_buf rx_buf : List Nat)
    (h : tx_buf.length ≠ rx_buf.length) :
    spi_ioc_transfer.read_write tx_buf rx_buf = Except.error Failure.PreconditionViolated
    ∧ SPI.read_write_events tx_buf rx_buf = [] := by
  have h1 : spi_ioc_transfer.read_write tx_buf rx_buf
      = Except.error Failure.PreconditionViolated := by
    simp [spi_ioc_transfer.read_write, h]
  exact ⟨h1, by simp [SPI.read_write_events, h1]⟩

/-- C4 witness: a one-byte transmit buffer against an empty receive
buffer fails at construction with no ioctl. -/
theorem C4_witness :
    ([1] : List Nat).length ≠ ([] : List Nat).length
    ∧ spi_ioc_transfer.read_write [1] [] = Except.error Failure.PreconditionViolated
    ∧ SPI.read_write_events [1] [] = [] := by
  refine ⟨by decide, ?_, ?_⟩
  · exact (C4_mismatched_lengths [1] [] (by decide)).1
  · exact (C4_mismatched_lengths [1] [] (by decide)).2

/-- C5: what GPIO::read actually does when the value file cannot be
opened or read: the source unwraps the file result, so the call panics
instead of returning the failure to the caller. -/
theorem C5_read_panics_on_io_failure :
    GPIO.read 45 (Except.error IoFailure.OpenFailed) = Outcome.panicked
    ∧ GPIO.read 45 (Except.error IoFailure.TransferFailed) = Outcome.panicked :=
  ⟨rfl, rfl⟩

/-- C6: on a successful read of the value file, GPIO::read trims the
content and maps "1" to High and "0" to Low; any other trimmed content
yields the Invalid-value error, with no retry (the function consumes a
single read result). -/
theorem C6_read_mapping (pin_num : Nat) (s : String) :
    (rustTrim s = "1" → GPIO.read pin_num (Except.ok s) = Outcome.ok PinState.High)
    ∧ (rustTrim s = "0" → GPIO.read pin_num (Except.ok s) = Outcome.ok PinState.Low)
    ∧ (rustTrim s ≠ "1" → rustTrim s ≠ "0" →
        GPIO.read pin_num (Except.ok s)
          = Outcome.err ("Invalid value read from file /sys/class/gpio/gpio"
              ++ toString pin_num ++ "/value")) := by
  refine ⟨fun h => ?_, fun h => ?_, fun h1 h2 => ?_⟩
  · simp [ GPIO.read, h]
  · simp [ GPIO.read, h]
  · simp [ GPIO.read, h1, h2]

/-- C6 witness: content "1" followed by a newline trims to "1" and reads
as High. -/
theorem C6_witness :
    (rustTrim "1\n" = "1") ∧ GPIO.read 69 (Except.ok "1\n") = Outcome.ok PinState.High := by
  have ht : rustTrim "1\n" = "1" := by decide
  exact ⟨ht, (C6_read_mapping 69 "1\n").1 ht⟩

/-- C7 counterexample: I2C::write(1) marshals direction 0, command 1,
size 1 as claimed, but its data field is the null pointer, not a pointer
to a zero-initialized 32+2 byte buffer. -/
theorem C7_counterexample :
    (I2C.write 1).2.read_write = 0 ∧ (I2C.write 1).2.command = 1 ∧ (I2C.write 1).2.size = 1
    ∧ (I2C.write 1).2.data = Option.none
    ∧ ¬(I2C.write 1).2.data = Option.some i2c_data.zeroed :=
  ⟨rfl, rfl, rfl, rfl, by decide⟩

/-- C7 (amended): I2C::write(b) marshals {direction 0, command b, size 1,
null data pointer} and I2C::read marshals {direction 1, command 0, size 1,
pointer to a zero-initialized 34-byte buffer}, both dispatched through the
SMBus control call; read returns byte 0 of the kernel-filled buffer, e.g.
7 for a mock buffer starting with 7. -/
theorem C7_amended (data : Nat) (kernel_filled : i2c_data) :
    I2C.write data = (I2C_SMBUS, ⟨0, data, 1, Option.none⟩)
    ∧ I2C.read_marshalled = (I2C_SMBUS, ⟨1, 0, 1, Option.some i2c_data.zeroed⟩)
    ∧ i2c_data.zeroed.block = List.replicate 34 0
    ∧ I2C.read_result kernel_filled = kernel_filled.block.headD 0
    ∧ I2C.read_result ⟨7 :: List.replicate 33 0⟩ = 7 :=
  ⟨rfl, rfl, rfl, rfl, rfl⟩

/-- Helper: every pin discriminant fits in u16. -/
theorem Pin.toNum_lt_u16 (pin : Pin) : pin.toNum < 65536 := by
  cases pin <;> decide

/-- C8: for every analog-input pin (discriminant at least 1000), ADC::new
stores the de-offset channel number id - 1000, and the path read by
ADC::read uses that channel number, not the offset-encoded id. -/
theorem C8_adc_deoffset (pin : Pin) (scaling_factor : ℚ) (h : 1000 ≤ pin.toNum) :
    (ADC.new pin scaling_factor).adc_num = pin.toNum - 1000
    ∧ (ADC.new pin scaling_factor).read_path
        = "/sys/bus/iio/devices/iio:device0/in_voltage"
            ++ toString (pin.toNum - 1000) ++ "_raw" := by
  have hlt := Pin.toNum_lt_u16 pin
  have hnum : (ADC.new pin scaling_factor).adc_num = pin.toNum - 1000 := by
    show u16_sub_wrap pin.toNum 1000 = pin.toNum - 1000
    unfold u16_sub_wrap
    omega
  exact ⟨hnum, by rw [ADC.read_path, hnum]⟩

/-- C8 witness: AIN_3 (discriminant 1003) stores channel 3, read path
in_voltage3_raw. -/
theorem C8_witness :
    1000 ≤ Pin.AIN_3.toNum
    ∧ (ADC.new Pin.AIN_3 0).adc_num = Pin.AIN_3.toNum - 1000
    ∧ Pin.AIN_3.toNum - 1000 = 3 :=
  ⟨by decide, (C8_adc_deoffset Pin.AIN_3 0 (by decide)).1, by decide⟩

/-- C9: on a freshly constructed PWM handle the cached period is 0, so
write(p) computes a duty cycle of 0 for every percentage p, writes the
string "0" to the duty_cycle file and succeeds; no missing-period error
is detected or reported. -/
theorem C9_write_on_fresh_handle (pwm_chip_num pwm_num : Nat) (p : ℚ) :
    (PWM.new pwm_chip_num pwm_num).period = 0
    ∧ ((PWM.new pwm_chip_num pwm_num).write p).1.duty_cycle = 0
    ∧ ((PWM.new pwm_chip_num pwm_num).write p).2
        = ⟨(PWM.new pwm_chip_num pwm_num).duty_cycle_path, "0"⟩ := by
  have hz : ratAsU32 (p / 100 * ((0 : Nat) : ℚ)) = 0 := by
    simp [ratAsU32]
  refine ⟨rfl, ?_, ?_⟩
  · show ratAsU32 (p / 100 * ((0 : Nat) : ℚ)) = 0
    exact hz
  · show FileWrite.mk _ (toString (ratAsU32 (p / 100 * ((0 : Nat) : ℚ)))) = _
    rw [hz]
    rfl

/-- C10: for every pin with discriminant below 1000 (every GPIO pin), the
u16 subtraction in ADC::new underflows: the checked (debug-build)
subtraction panics, and the wrapping (release-build) result is the bogus
channel id + 64536, far outside the valid ADC channel range 0-7. -/
theorem C10_adc_underflow (pin : Pin) (scaling_factor : ℚ) (h : pin.toNum < 1000) :
    u16_sub_checked pin.toNum 1000 = Option.none
    ∧ (ADC.new pin scaling_factor).adc_num = pin.toNum + 64536
    ∧ 7 < (ADC.new pin scaling_factor).adc_num := by
  have hlt := Pin.toNum_lt_u16 pin
  have hcond : ¬(1000 % 65536 ≤ pin.toNum % 65536) := by omega
  have hwrap : (ADC.new pin scaling_factor).adc_num = pin.toNum + 64536 := by
    show u16_sub_wrap pin.toNum 1000 = pin.toNum + 64536
    unfold u16_sub_wrap
    omega
  refine ⟨?_, hwrap, ?_⟩
  · simp [u16_sub_checked, hcond]
  · omega

/-- C10 witness: GPIO_P8_11 (discriminant 45): the checked subtraction
panics and the wrapped channel is 64581. -/
theorem C10_witness :
    Pin.GPIO_P8_11.toNum < 1000
    ∧ u16_sub_checked Pin.GPIO_P8_11.toNum 1000 = Option.none
    ∧ (ADC.new Pin.GPIO_P8_11 0).adc_num = Pin.GPIO_P8_11.toNum + 64536 :=
  ⟨by decide, (C10_adc_underflow Pin.GPIO_P8_11 0 (by decide)).1,
    (C10_adc_underflow Pin.GPIO_P8_11 0 (by decide)).2.1⟩
